import Mathlib

/-!
Verification of `src/switchroot/ostree-prepare-root.c`.

The program is a one-shot boot-time root switcher.  We model it as a pure
function over an `Env` record that captures every fact the program obtains
from the outside world (kernel command line values, results of `lstat` /
`stat` / `realpath`, success or failure of each mount-table operation,
contents of commit metadata, the cryptographic verdict for each detached
signature, and the two compile-time options).  The run of `main` is embedded
as `main_run : Env → Run Unit`, which either ends in `Run.fatal msg trace`
(the C code called `err`/`errx` and exited non-zero) or `Run.ok trace ()`
(the C code reached `exit (EXIT_SUCCESS)`).  The `trace` lists, in program
order, every side-effecting operation that was attempted, so ordering and
absence-of-side-effect properties are statements about the trace.

Modelling conventions, stated once:
  * `snprintf` into a `PATH_MAX` buffer is modelled as total string
    concatenation (its failure branch is unreachable for the inputs the
    model quantifies over).
  * logging via `g_print` / journal sending is not an effect in the model.
  * the cryptographic primitive `otcore_validate_ed25519_signature` is
    abstracted by `SigOutcome`: for each signature blob the world determines
    whether the primitive errors out, reports the signature invalid, or
    reports it valid for the supplied key.
  * GVariant serialization of the run-state record is abstracted by the
    association list of key/value pairs in insertion order; the C
    serializer is a pure function of exactly this list.
  * quote characters inside C diagnostic format strings are dropped.
  * key-name string constants that live in `otcore.h` (outside `src/`) are
    given symbolic values; no claim depends on their exact spelling.
-/

/-- Composefs policy modes, from the `OstreeComposefsMode` enum (lines 91-98). -/
inductive OstreeComposefsMode where
  | off
  | maybe
  | on
  | signed
  | digest
deriving DecidableEq, Repr

/-- Numeric value of each enum constant, used for the C comparison
`composefs_mode > OSTREE_COMPOSEFS_MODE_MAYBE` (line 425). -/
def OstreeComposefsMode.toNat : OstreeComposefsMode → Nat
  | .off => 0
  | .maybe => 1
  | .on => 2
  | .signed => 3
  | .digest => 4

/-- Value stored in the run-state metadata builder: GVariant booleans and strings. -/
inductive RunVal where
  | vb (b : Bool)
  | vs (s : String)
deriving DecidableEq, Repr

/-- Side-effecting operations attempted by the program, in the order `main`
performs them.  Each constructor corresponds to one syscall site in the C file. -/
inductive Event where
  | mountProcOnProc
  | umountProc
  | remountRootPrivate
  | mkdirTmpSysroot
  | chdirDeploy
  | lcfsMountImage (requireVerity : Bool) (expectedDigest : Option String)
  | bindDeployToTmp (deployPath : String)
  | bindBoot (srcpath : String)
  | bindEtc
  | remountEtcWritable
  | remountTmpWritable
  | mountUsrOverlay (options : String)
  | bindUsrSelf
  | remountUsrReadonly
  | bindVarSelf
  | remountVarWritable
  | bindVarToTmp
  | writeRunBooted (record : List (String × RunVal))
  | chdirTmp
  | pivotRootSwitch
  | moveRootToSysroot (root : String)
  | moveTmpToRoot (root : String)
  | chdirRoot
  | rmdirTmpSysroot
  | remountSysrootReadonly
  | markSysrootPrivate
deriving DecidableEq, Repr

/-- Result of a run: `ok` with the trace of attempted operations, or `fatal`
with the diagnostic message and the trace up to the failing operation. -/
inductive Run (α : Type) where
  | ok (tr : List Event) (val : α)
  | fatal (msg : String) (tr : List Event)
deriving DecidableEq, Repr

/-- Verdict of the signature primitive for one detached signature:
`err` models `otcore_validate_ed25519_signature` returning an error,
`res b` models it succeeding with validity verdict `b`. -/
inductive SigOutcome where
  | err (msg : String)
  | res (valid : Bool)
deriving DecidableEq, Repr

/-- Environment: every fact the program reads from the outside world.
Fields named `...Ok` give the success of the corresponding fallible syscall. -/
structure Env where
  argv1 : Option String
  procCmdlineStat : Option Bool
  mountProcOk : Bool
  realpathRoot : Option String
  ostreeTarget : Option String
  lstatDest : Option Bool
  realpathDest : Option String
  statDeployOk : Bool
  umountProcOk : Bool
  otComposefs : Option String
  haveComposefs : Bool
  repoConfig : Option Bool
  pathReadonlyFs : String → Bool
  remountRootPrivateOk : Bool
  mkdirTmpOk : Bool
  chdirDeployOk : Bool
  pubkeyLoadOk : Bool
  commitLoadOk : Bool
  signatures : Option (List SigOutcome)
  cfsDigestV : Option (List Nat)
  lcfsMountOk : Bool
  bindDeployOk : Bool
  fsLstatIsSymlink : String → Bool
  fsLstatIsDir : String → Bool
  fsLstatExists : String → Bool
  bindBootOk : Bool
  bindEtcOk : Bool
  remountEtcOk : Bool
  remountTmpOk : Bool
  mountUsrOverlayOk : Bool
  bindUsrOk : Bool
  remountUsrOk : Bool
  bindVarSelfOk : Bool
  remountVarOk : Bool
  haveSystemdAndLibmount : Bool
  bindVarTmpOk : Bool
  writeRunBootedOk : Bool
  chdirTmpOk : Bool
  pivotRootOk : Bool
  moveSysrootOk : Bool
  moveTmpOk : Bool
  chdirRootOk : Bool
  rmdirTmpOk : Bool
  remountSysrootROOk : Bool
  markPrivateOk : Bool

/-- Temporary staging mountpoint, `TMP_SYSROOT` (line 82). -/
def TMP_SYSROOT : String := "/sysroot.tmp"

/-- Digest length constant `OSTREE_SHA256_DIGEST_LEN` (32 bytes). -/
def OSTREE_SHA256_DIGEST_LEN : Nat := 32

/-- Key for the composefs flag in the run-state record, from `otcore.h`. -/
def OTCORE_RUN_BOOTED_KEY_COMPOSEFS : String := "composefs"

/-- Key for the composefs signature source in the run-state record, from `otcore.h`. -/
def OTCORE_RUN_BOOTED_KEY_COMPOSEFS_SIGNATURE : String := "composefs.signature"

/-- Key for the sysroot read-only flag in the run-state record, from `otcore.h`. -/
def OTCORE_RUN_BOOTED_KEY_SYSROOT_RO : String := "sysroot-ro"

/-- Marker path for external /var mount management, `INITRAMFS_MOUNT_VAR`. -/
def INITRAMFS_MOUNT_VAR : String := "/run/ostree/initramfs-mount-var"

/-- Overlay mount options string built at lines 484-485:
`lowerdir=` TMP_SYSROOT `/usr,upperdir=.usr-ovl-upper,workdir=.usr-ovl-work`. -/
def usr_ovl_options : String :=
  "lowerdir=" ++ TMP_SYSROOT ++ "/usr,upperdir=.usr-ovl-upper,workdir=.usr-ovl-work"

/-- Hex digit for a nibble, as used by `ot_bin2hex`. -/
def hexChar (n : Nat) : Char :=
  if n = 0 then Char.ofNat 48 else if n = 1 then Char.ofNat 49
  else if n = 2 then Char.ofNat 50 else if n = 3 then Char.ofNat 51
  else if n = 4 then Char.ofNat 52 else if n = 5 then Char.ofNat 53
  else if n = 6 then Char.ofNat 54 else if n = 7 then Char.ofNat 55
  else if n = 8 then Char.ofNat 56 else if n = 9 then Char.ofNat 57
  else if n = 10 then Char.ofNat 97 else if n = 11 then Char.ofNat 98
  else if n = 12 then Char.ofNat 99 else if n = 13 then Char.ofNat 100
  else if n = 14 then Char.ofNat 101 else Char.ofNat 102

/-- Model of `ot_bin2hex`: each byte becomes two lowercase hex characters,
high nibble first (lines 377-379 convert the embedded binary digest to hex). -/
def ot_bin2hex (bs : List Nat) : String :=
  String.mk (bs.foldr (fun b acc => hexChar (b / 16 % 16) :: hexChar (b % 16) :: acc) [])

/-- Model of `sysroot_is_configured_ro` (lines 100-113): load the repo config
keyfile; on load failure return false, otherwise return the boolean value of
the `sysroot.readonly` key (false when the key is absent, folded into the
`Option Bool` the world supplies). -/
def sysroot_is_configured_ro (repoConfig : Option Bool) : Bool :=
  match repoConfig with
  | none => false
  | some b => b

/-- Model of `resolve_deploy_path` (lines 115-144).  Reads the `ostree=`
kernel argument, assembles `root_mountpoint/target`, requires the path to
exist via `lstat` and to be a symbolic link, resolves it with `realpath`,
and finally `stat`s the resolved path.  Each failure is fatal with its own
diagnostic; on success the canonical deploy path is returned. -/
def resolve_deploy_path (e : Env) (root_mountpoint : String) : Except String String :=
  match e.ostreeTarget with
  | none => .error "No ostree= cmdline"
  | some ostree_target =>
    let destpath := root_mountpoint ++ "/" ++ ostree_target
    match e.lstatDest with
    | none => .error ("Couldnt find specified OSTree root " ++ destpath)
    | some isLink =>
      if isLink then
        match e.realpathDest with
        | none => .error ("realpath(" ++ destpath ++ ") failed")
        | some deploy_path =>
          if e.statDeployOk then .ok deploy_path
          else .error ("stat(" ++ deploy_path ++ ") failed")
      else .error ("OSTree target is not a symbolic link: " ++ destpath)

/-- Parsed `ot-composefs` command-line value: the mode plus its payload,
mirroring the three C variables `composefs_mode`, `composefs_digest`,
`composefs_pubkey` (lines 268-292). -/
structure ComposefsConfig where
  mode : OstreeComposefsMode
  digest : Option String
  pubkey : Option String
deriving DecidableEq, Repr

/-- Model of the `ot-composefs` option parsing (lines 268-292).  Absence of
the key leaves the default `maybe`; an unrecognized value is fatal.  The C
`strncmp` comparisons against `signed=` and `digest=` and the pointer
offsets into the value are modelled on the character list of the string. -/
def parse_ot_composefs (v : Option String) : Except String ComposefsConfig :=
  match v with
  | none => .ok ⟨.maybe, none, none⟩
  | some s =>
    if s = "off" then .ok ⟨.off, none, none⟩
    else if s = "maybe" then .ok ⟨.maybe, none, none⟩
    else if s = "on" then .ok ⟨.on, none, none⟩
    else if s.data.take 7 = "signed=".data then
      .ok ⟨.signed, none, some (String.mk (s.data.drop 7))⟩
    else if s.data.take 7 = "digest=".data then
      .ok ⟨.digest, some (String.mk (s.data.drop 7)), none⟩
    else .error ("Unsupported ot-composefs option: " ++ s)

/-- Model of `validate_signature` (lines 204-223): walk the signature list in
order; if the verification primitive errors the process dies immediately
(`errx`, modelled as `.error`); the first valid signature short-circuits to
success; an exhausted list yields `.ok false`. -/
def validate_signature : List SigOutcome → Except String Bool
  | [] => .ok false
  | .err m :: _ => .error ("signature verification failed: " ++ m)
  | .res true :: _ => .ok true
  | .res false :: rest => validate_signature rest

/-- Helper: record the attempted operation `ev`, then either continue with
the continuation or die with `msg` if the operation failed.  Every fallible
syscall site of `main` is expressed through this combinator. -/
def opStep (tr : List Event) (ev : Event) (ok : Bool) (msg : String)
    (k : List Event → Run α) : Run α :=
  if ok then k (tr ++ [ev]) else .fatal msg (tr ++ [ev])

/-- Output of the composed-root setup: whether composefs is in use, and the
run-state metadata builder contents accumulated so far. -/
structure CfsOut where
  usingComposefs : Bool
  md : List (String × RunVal)
deriving DecidableEq, Repr

/-- Model of the composed-root construction, lines 331-435.  Covers the
composefs attempt block (`composefs_mode != OFF`), the `HAVE_COMPOSEFS`
compile guard, the RequiredSigned signature/digest handling, the
`lcfs_mount_image` call, and the fallback logic at lines 423-435: when
composefs is not in use, a mode above `maybe` is fatal, otherwise the deploy
directory is bind mounted onto the staging mountpoint. -/
def setup_composed_root (e : Env) (cfg : ComposefsConfig)
    (deploy_path : String) (md : List (String × RunVal)) (tr : List Event) : Run CfsOut :=
  let attempt : Run (Bool × List (String × RunVal)) :=
    if cfg.mode = .off then .ok tr (false, md)
    else if e.haveComposefs then
      let signedPart : Run (Option String × List (String × RunVal)) :=
        if cfg.mode = .signed then
          if e.pubkeyLoadOk then
            if e.commitLoadOk then
              match e.signatures with
              | none => .fatal "Signature validation requested, but no signatures in commit" tr
              | some sigs =>
                match validate_signature sigs with
                | .error m => .fatal m tr
                | .ok false => .fatal "No valid signatures found for public key" tr
                | .ok true =>
                  let md := md ++ [(OTCORE_RUN_BOOTED_KEY_COMPOSEFS_SIGNATURE,
                    RunVal.vs (cfg.pubkey.getD ""))]
                  match e.cfsDigestV with
                  | none => .fatal "Signature validation requested, but no valid digest in commit" tr
                  | some d =>
                    if d.length = OSTREE_SHA256_DIGEST_LEN then
                      .ok tr (some (ot_bin2hex d), md)
                    else
                      .fatal "Signature validation requested, but no valid digest in commit" tr
            else .fatal "Error loading signatures from repo" tr
          else .fatal "Failed to load public key" tr
        else .ok tr (cfg.digest, md)
      match signedPart with
      | .fatal m t => .fatal m t
      | .ok tr (composefs_digest, md) =>
        let requireVerity := composefs_digest.isSome
        let tr := tr ++ [.lcfsMountImage requireVerity composefs_digest]
        if e.lcfsMountOk then
          .ok tr (true, md ++ [(OTCORE_RUN_BOOTED_KEY_COMPOSEFS, RunVal.vb true)])
        else
          .ok tr (false, md)
    else .fatal "Composefs not supported" tr
  match attempt with
  | .fatal m t => .fatal m t
  | .ok tr (usingComposefs, md) =>
    if usingComposefs then .ok tr ⟨true, md⟩
    else
      if cfg.mode.toNat > OstreeComposefsMode.maybe.toNat then
        .fatal "Failed to mount composefs" tr
      else
        opStep tr (.bindDeployToTmp deploy_path) e.bindDeployOk
          ("failed to make initial bind mount " ++ deploy_path)
          (fun tr => .ok tr ⟨false, md⟩)

/-- Model of the /boot preparation, lines 449-463: bind the physical root
`/boot` into the staging tree only when `root_mountpoint/boot/loader` is a
symbolic link and the deployment has a local `boot` directory (relative
`lstat`, the working directory being the deploy path). -/
def prepare_boot (e : Env) (root_mountpoint : String) (tr : List Event) : Run Unit :=
  if e.fsLstatIsSymlink (root_mountpoint ++ "/boot/loader") then
    if e.fsLstatIsDir "boot" then
      opStep tr (.bindBoot (root_mountpoint ++ "/boot")) e.bindBootOk
        "failed to bind mount boot" (fun tr => .ok tr ())
    else .ok tr ()
  else .ok tr ()

/-- Model of the /etc preparation, lines 465-477: when the sysroot is
configured read-only or composefs is in use, bind `etc` onto the staging
`/etc` and remount the bind writable. -/
def prepare_etc (e : Env) (sysroot_readonly usingComposefs : Bool) (tr : List Event) : Run Unit :=
  if sysroot_readonly || usingComposefs then
    opStep tr .bindEtc e.bindEtcOk
      "failed to prepare /etc bind-mount at /sysroot.tmp/etc" (fun tr =>
    opStep tr .remountEtcWritable e.remountEtcOk
      "failed to make writable /etc bind-mount at /sysroot.tmp/etc" (fun tr => .ok tr ()))
  else .ok tr ()

/-- Model of the /usr preparation, lines 479-510: with a `.usr-ovl-work`
marker in the deployment, mount a persistent overlay (remounting the staging
tree writable first if it is on a read-only filesystem); otherwise, unless
composefs is in use, create a read-only double bind of `/usr`. -/
def prepare_usr (e : Env) (usingComposefs : Bool) (tr : List Event) : Run Unit :=
  if e.fsLstatExists ".usr-ovl-work" then
    let cont := fun tr =>
      opStep tr (.mountUsrOverlay usr_ovl_options) e.mountUsrOverlayOk
        "failed to mount /usr overlayfs" (fun tr => .ok tr ())
    if e.pathReadonlyFs TMP_SYSROOT then
      opStep tr .remountTmpWritable e.remountTmpOk
        "failed to remount rootfs writable (for overlayfs)" cont
    else cont tr
  else if usingComposefs then .ok tr ()
  else
    opStep tr .bindUsrSelf e.bindUsrOk
      "failed to bind mount (class:readonly) /usr" (fun tr =>
    opStep tr .remountUsrReadonly e.remountUsrOk
      "failed to bind mount (class:readonly) /usr" (fun tr => .ok tr ()))

/-- Model of the /var preparation, lines 512-543: with a read-only sysroot,
self bind and remount the stateroot `/var` writable; then bind the stateroot
`/var` into the staging tree unless systemd-and-libmount support is compiled
in and no `INITRAMFS_MOUNT_VAR` marker overrides the auto-detection. -/
def prepare_var (e : Env) (sysroot_readonly : Bool) (tr : List Event) : Run Unit :=
  let varTail := fun (tr : List Event) =>
    let mount_var := !e.haveSystemdAndLibmount || e.fsLstatExists INITRAMFS_MOUNT_VAR
    if mount_var then
      opStep tr .bindVarToTmp e.bindVarTmpOk
        "failed to bind mount ../../var to var" (fun tr => .ok tr ())
    else .ok tr ()
  if sysroot_readonly then
    opStep tr .bindVarSelf e.bindVarSelfOk
      "failed to prepare /var bind-mount" (fun tr =>
    opStep tr .remountVarWritable e.remountVarOk
      "failed to make writable /var bind-mount" varTail)
  else varTail tr

/-- Model of the run-state record write, lines 545-552: the metadata builder
contents are serialized and written atomically to the well-known path. -/
def write_run_state (e : Env) (md : List (String × RunVal)) (tr : List Event) : Run Unit :=
  opStep tr (.writeRunBooted md) e.writeRunBootedOk
    "Writing run/ostree-booted failed" (fun tr => .ok tr ())

/-- Model of the root switch, lines 554-612: chdir into the staging tree,
then either pivot_root (physical root is `/`) or the move-mount sequence,
with the read-only sysroot hardening remount, and finally the private
propagation marking of `sysroot`. -/
def switch_root (e : Env) (root_mountpoint : String) (sysroot_readonly : Bool)
    (tr : List Event) : Run Unit :=
  let finish := fun (tr : List Event) =>
    opStep tr .markSysrootPrivate e.markPrivateOk
      "remounting sysroot private" (fun tr => .ok tr ())
  opStep tr .chdirTmp e.chdirTmpOk "failed to chdir to /sysroot.tmp" (fun tr =>
  if root_mountpoint = "/" then
    opStep tr .pivotRootSwitch e.pivotRootOk
      "failed to pivot_root to deployment" finish
  else
    opStep tr (.moveRootToSysroot root_mountpoint) e.moveSysrootOk
      "failed to MS_MOVE root to sysroot" (fun tr =>
    opStep tr (.moveTmpToRoot root_mountpoint) e.moveTmpOk
      "failed to MS_MOVE tmp to root mountpoint" (fun tr =>
    opStep tr .chdirRoot e.chdirRootOk
      "failed to chdir to root mountpoint" (fun tr =>
    opStep tr .rmdirTmpSysroot e.rmdirTmpOk
      "couldnt remove temporary sysroot" (fun tr =>
    if sysroot_readonly then
      opStep tr .remountSysrootReadonly e.remountSysrootROOk
        "failed to make /sysroot read-only" finish
    else finish tr)))))

/-- Tail of `main` from the sysroot-writability check (line 439) to the end:
the read-only policy check, the run-state key for the read-only flag, the
/boot, /etc, /usr and /var preparations, the run-state write, and the root
switch. -/
def main_tail (e : Env) (root_arg root_mountpoint : String) (sysroot_readonly : Bool)
    (out : CfsOut) (tr : List Event) : Run Unit :=
  if sysroot_readonly && e.pathReadonlyFs root_arg then
    .fatal ("sysroot.readonly=true requires " ++ root_arg ++ " to be writable at this point") tr
  else
    let md := out.md ++ [(OTCORE_RUN_BOOTED_KEY_SYSROOT_RO, RunVal.vb sysroot_readonly)]
    match prepare_boot e root_mountpoint tr with
    | .fatal m t => .fatal m t
    | .ok tr _ =>
      match prepare_etc e sysroot_readonly out.usingComposefs tr with
      | .fatal m t => .fatal m t
      | .ok tr _ =>
        match prepare_usr e out.usingComposefs tr with
        | .fatal m t => .fatal m t
        | .ok tr _ =>
          match prepare_var e sysroot_readonly tr with
          | .fatal m t => .fatal m t
          | .ok tr _ =>
            match write_run_state e md tr with
            | .fatal m t => .fatal m t
            | .ok tr _ => switch_root e root_mountpoint sysroot_readonly tr

/-- Model of `main` (lines 226-615).  Argument check, optional transient
/proc mount for `/proc/cmdline`, realpath of the physical root, deployment
resolution, proc unmount, composefs policy parsing with the compile-time
downgrade of `maybe` to `off` when composefs support is absent, the
private remount of `/`, staging directory creation, chdir to the deployment,
composed-root construction, and the tail phases. -/
def main_run (e : Env) : Run Unit :=
  match e.argv1 with
  | none => .fatal "usage: ostree-prepare-root SYSROOT" []
  | some root_arg =>
    match e.procCmdlineStat with
    | none => .fatal "stat(/proc/cmdline) failed" []
    | some cmdline_present =>
      let procStep : Run Bool :=
        if cmdline_present then .ok [] false
        else opStep [] .mountProcOnProc e.mountProcOk
          "failed to mount proc on /proc" (fun tr => .ok tr true)
      match procStep with
      | .fatal m t => .fatal m t
      | .ok tr we_mounted_proc =>
        match e.realpathRoot with
        | none => .fatal ("realpath(" ++ root_arg ++ ")") tr
        | some root_mountpoint =>
          match resolve_deploy_path e root_mountpoint with
          | .error m => .fatal m tr
          | .ok deploy_path =>
            let postProc : Run Unit :=
              if we_mounted_proc then
                opStep tr .umountProc e.umountProcOk
                  "failed to umount proc from /proc" (fun tr => .ok tr ())
              else .ok tr ()
            match postProc with
            | .fatal m t => .fatal m t
            | .ok tr _ =>
              match parse_ot_composefs e.otComposefs with
              | .error m => .fatal m tr
              | .ok cfg0 =>
                let cfg := if e.haveComposefs then cfg0
                  else if cfg0.mode = .maybe then { cfg0 with mode := .off } else cfg0
                let sysroot_readonly := sysroot_is_configured_ro e.repoConfig
                opStep tr .remountRootPrivate e.remountRootPrivateOk
                  "failed to make / private mount" (fun tr =>
                opStep tr .mkdirTmpSysroot e.mkdirTmpOk
                  "couldnt create temporary sysroot" (fun tr =>
                opStep tr .chdirDeploy e.chdirDeployOk
                  "failed to chdir to deploy_path" (fun tr =>
                match setup_composed_root e cfg deploy_path [] tr with
                | .fatal m t => .fatal m t
                | .ok tr out =>
                  main_tail e root_arg root_mountpoint sysroot_readonly out tr)))

/-- Run-state record contents as a function of the three recorded facts:
signing key source, composefs in use, sysroot read-only policy.  Entries are
in builder insertion order (lines 367, 404, 446). -/
def run_state_record (signedKey : Option String) (usingComposefs : Bool) (ro : Bool) :
    List (String × RunVal) :=
  (match signedKey with
   | some k => [(OTCORE_RUN_BOOTED_KEY_COMPOSEFS_SIGNATURE, RunVal.vs k)]
   | none => []) ++
  (if usingComposefs then [(OTCORE_RUN_BOOTED_KEY_COMPOSEFS, RunVal.vb true)] else []) ++
  [(OTCORE_RUN_BOOTED_KEY_SYSROOT_RO, RunVal.vb ro)]

/-- Events that constitute the atomic root switch. -/
def isSwitchEvent : Event → Bool
  | .pivotRootSwitch => true
  | .moveRootToSysroot _ => true
  | .moveTmpToRoot _ => true
  | _ => false

/-- Success of every fallible operation from the staging phases onward,
used as a compact hypothesis by run-level theorems. -/
def opsOk (e : Env) : Prop :=
  e.statDeployOk = true ∧ e.remountRootPrivateOk = true ∧ e.mkdirTmpOk = true ∧
  e.chdirDeployOk = true ∧ e.pubkeyLoadOk = true ∧ e.commitLoadOk = true ∧
  e.bindDeployOk = true ∧ e.bindBootOk = true ∧ e.bindEtcOk = true ∧
  e.remountEtcOk = true ∧ e.remountTmpOk = true ∧ e.mountUsrOverlayOk = true ∧
  e.bindUsrOk = true ∧ e.remountUsrOk = true ∧ e.bindVarSelfOk = true ∧
  e.remountVarOk = true ∧ e.bindVarTmpOk = true ∧ e.writeRunBootedOk = true ∧
  e.chdirTmpOk = true ∧ e.pivotRootOk = true ∧ e.moveSysrootOk = true ∧
  e.moveTmpOk = true ∧ e.chdirRootOk = true ∧ e.rmdirTmpOk = true ∧
  e.remountSysrootROOk = true ∧ e.markPrivateOk = true

/-- Concrete environment: a fully successful run with the composefs policy
off, a writable sysroot, no boot sharing, and no /usr overlay marker.
Witness environments below are record updates of this one. -/
def envBase : Env where
  argv1 := some "/sysroot"
  procCmdlineStat := some true
  mountProcOk := true
  realpathRoot := some "/sysroot"
  ostreeTarget := some "ostree/boot.1/default/0/0"
  lstatDest := some true
  realpathDest := some "/sysroot/ostree/deploy/default/deploy/abc.0"
  statDeployOk := true
  umountProcOk := true
  otComposefs := some "off"
  haveComposefs := true
  repoConfig := some false
  pathReadonlyFs := fun _ => false
  remountRootPrivateOk := true
  mkdirTmpOk := true
  chdirDeployOk := true
  pubkeyLoadOk := true
  commitLoadOk := true
  signatures := some [.res true]
  cfsDigestV := some (List.replicate 32 171)
  lcfsMountOk := true
  bindDeployOk := true
  fsLstatIsSymlink := fun _ => false
  fsLstatIsDir := fun _ => false
  fsLstatExists := fun _ => false
  bindBootOk := true
  bindEtcOk := true
  remountEtcOk := true
  remountTmpOk := true
  mountUsrOverlayOk := true
  bindUsrOk := true
  remountUsrOk := true
  bindVarSelfOk := true
  remountVarOk := true
  haveSystemdAndLibmount := true
  bindVarTmpOk := true
  writeRunBootedOk := true
  chdirTmpOk := true
  pivotRootOk := true
  moveSysrootOk := true
  moveTmpOk := true
  chdirRootOk := true
  rmdirTmpOk := true
  remountSysrootROOk := true
  markPrivateOk := true

/-- Concrete environment in which the PHYSICAL root has a `/boot/loader`
symlink and the deployment has a local `boot` directory, but the deployment
itself has no `/boot/loader` symlink. -/
def envC4 : Env :=
  { envBase with
    fsLstatIsSymlink := fun p => p == "/sysroot/boot/loader"
    fsLstatIsDir := fun p => p == "boot" }

/-- Concrete environment in which `/proc/cmdline` is initially absent (so the
program mounts /proc transiently) and the deployment target symlink does not
exist. -/
def envC7 : Env :=
  { envBase with
    procCmdlineStat := some false
    lstatDest := none }

/-- Membership in an if-then-else of lists reduces to an if-then-else of
membership statements. -/
theorem mem_ite_list {c : Prop} [Decidable c] (a : α) (l1 l2 : List α) :
    (a ∈ if c then l1 else l2) ↔ (if c then a ∈ l1 else a ∈ l2) := by
  split <;> rfl

/-- A signature list in which every entry is cleanly invalid validates to false. -/
theorem validate_all_false (sigs : List SigOutcome)
    (h : ∀ s ∈ sigs, s = SigOutcome.res false) :
    validate_signature sigs = .ok false := by
  induction sigs with
  | nil => rfl
  | cons s rest ih =>
    have hs := h s (by simp)
    subst hs
    simpa [validate_signature] using ih (fun x hx => h x (by simp [hx]))

/-- Short-circuit success: with only cleanly-invalid signatures before it, the
first valid signature makes validation succeed regardless of what follows. -/
theorem validate_first_valid (pre post : List SigOutcome)
    (h : ∀ s ∈ pre, s = SigOutcome.res false) :
    validate_signature (pre ++ SigOutcome.res true :: post) = .ok true := by
  induction pre with
  | nil => rfl
  | cons s rest ih =>
    have hs := h s (by simp)
    subst hs
    simpa [validate_signature] using ih (fun x hx => h x (by simp [hx]))

/-- A primitive error encountered before any valid signature is fatal,
regardless of what follows it in the list. -/
theorem validate_error_first (pre post : List SigOutcome) (m : String)
    (h : ∀ s ∈ pre, s = SigOutcome.res false) :
    validate_signature (pre ++ SigOutcome.err m :: post)
      = .error ("signature verification failed: " ++ m) := by
  induction pre with
  | nil => rfl
  | cons s rest ih =>
    have hs := h s (by simp)
    subst hs
    simpa [validate_signature] using ih (fun x hx => h x (by simp [hx]))

/-- Successful-run characterization of the /boot phase. -/
theorem prepare_boot_eq (e : Env) (rm : String) (tr : List Event)
    (h : e.bindBootOk = true) :
    prepare_boot e rm tr = .ok (tr ++
      (if e.fsLstatIsSymlink (rm ++ "/boot/loader") && e.fsLstatIsDir "boot"
       then [.bindBoot (rm ++ "/boot")] else [])) () := by
  unfold prepare_boot opStep
  cases h1 : e.fsLstatIsSymlink (rm ++ "/boot/loader") <;>
    cases h2 : e.fsLstatIsDir "boot" <;> simp [h, h1, h2]

/-- Successful-run characterization of the /etc phase. -/
theorem prepare_etc_eq (e : Env) (ro u : Bool) (tr : List Event)
    (h1 : e.bindEtcOk = true) (h2 : e.remountEtcOk = true) :
    prepare_etc e ro u tr = .ok (tr ++
      (if ro || u then [.bindEtc, .remountEtcWritable] else [])) () := by
  unfold prepare_etc opStep
  cases ro <;> cases u <;> simp [h1, h2]

/-- Successful-run characterization of the /usr phase. -/
theorem prepare_usr_eq (e : Env) (u : Bool) (tr : List Event)
    (h1 : e.remountTmpOk = true) (h2 : e.mountUsrOverlayOk = true)
    (h3 : e.bindUsrOk = true) (h4 : e.remountUsrOk = true) :
    prepare_usr e u tr = .ok (tr ++
      (if e.fsLstatExists ".usr-ovl-work" then
        (if e.pathReadonlyFs TMP_SYSROOT then [.remountTmpWritable] else [])
          ++ [.mountUsrOverlay usr_ovl_options]
       else if u then [] else [.bindUsrSelf, .remountUsrReadonly])) () := by
  unfold prepare_usr opStep
  cases hm : e.fsLstatExists ".usr-ovl-work" <;>
    cases hr : e.pathReadonlyFs TMP_SYSROOT <;> cases u <;> simp [h1, h2, h3, h4, hm, hr]

/-- Successful-run characterization of the /var phase. -/
theorem prepare_var_eq (e : Env) (ro : Bool) (tr : List Event)
    (h1 : e.bindVarSelfOk = true) (h2 : e.remountVarOk = true)
    (h3 : e.bindVarTmpOk = true) :
    prepare_var e ro tr = .ok (tr ++
      ((if ro then [.bindVarSelf, .remountVarWritable] else []) ++
       (if !e.haveSystemdAndLibmount || e.fsLstatExists INITRAMFS_MOUNT_VAR
        then [.bindVarToTmp] else []))) () := by
  unfold prepare_var opStep
  cases ro <;> cases hs : e.haveSystemdAndLibmount <;>
    cases hv : e.fsLstatExists INITRAMFS_MOUNT_VAR <;> simp [h1, h2, h3, hs, hv]

/-- Successful-run characterization of the run-state write. -/
theorem write_run_state_eq (e : Env) (md : List (String × RunVal)) (tr : List Event)
    (h : e.writeRunBootedOk = true) :
    write_run_state e md tr = .ok (tr ++ [.writeRunBooted md]) () := by
  unfold write_run_state opStep
  simp [h]

/-- Successful-run characterization of the root switch phase. -/
theorem switch_root_eq (e : Env) (rm : String) (ro : Bool) (tr : List Event)
    (h1 : e.chdirTmpOk = true) (h2 : e.pivotRootOk = true)
    (h3 : e.moveSysrootOk = true) (h4 : e.moveTmpOk = true)
    (h5 : e.chdirRootOk = true) (h6 : e.rmdirTmpOk = true)
    (h7 : e.remountSysrootROOk = true) (h8 : e.markPrivateOk = true) :
    switch_root e rm ro tr = .ok (tr ++
      ([Event.chdirTmp] ++
       (if rm = "/" then [.pivotRootSwitch]
        else [.moveRootToSysroot rm, .moveTmpToRoot rm, .chdirRoot, .rmdirTmpSysroot]
          ++ (if ro then [.remountSysrootReadonly] else [])) ++
       [Event.markSysrootPrivate])) () := by
  unfold switch_root opStep
  by_cases hrm : rm = "/" <;> cases ro <;>
    simp [h1, h2, h3, h4, h5, h6, h7, h8, hrm]

/-- Spine of a run that gets past deployment resolution and policy parsing:
`main_run` reduces to the composed-root setup followed by the tail phases. -/
theorem main_run_eq (e : Env) (ra rm tg dp : String) (cfg : ComposefsConfig)
    (h1 : e.argv1 = some ra) (h2 : e.procCmdlineStat = some true)
    (h3 : e.realpathRoot = some rm) (h4 : e.ostreeTarget = some tg)
    (h5 : e.lstatDest = some true) (h6 : e.realpathDest = some dp)
    (h7 : e.statDeployOk = true) (h8 : parse_ot_composefs e.otComposefs = .ok cfg)
    (h9 : e.haveComposefs = true) (h10 : e.remountRootPrivateOk = true)
    (h11 : e.mkdirTmpOk = true) (h12 : e.chdirDeployOk = true) :
    main_run e =
      (match setup_composed_root e cfg dp []
          [.remountRootPrivate, .mkdirTmpSysroot, .chdirDeploy] with
       | .fatal m t => .fatal m t
       | .ok tr out =>
         main_tail e ra rm (sysroot_is_configured_ro e.repoConfig) out tr) := by
  unfold main_run resolve_deploy_path opStep
  simp [h1, h2, h3, h4, h5, h6, h7, h8, h9, h10, h11, h12]

/-- Composed-root setup with the policy off: plain bind mount of the deploy
directory, composefs not in use, metadata unchanged. -/
theorem scr_off (e : Env) (cfg : ComposefsConfig) (dp : String)
    (md : List (String × RunVal)) (tr : List Event)
    (hm : cfg.mode = .off) (hb : e.bindDeployOk = true) :
    setup_composed_root e cfg dp md tr = .ok (tr ++ [.bindDeployToTmp dp]) ⟨false, md⟩ := by
  unfold setup_composed_root opStep
  simp [hm, OstreeComposefsMode.toNat, hb]

/-- Composed-root setup in `maybe` mode: the opportunistic mount attempt, with
bind-mount fallback exactly when the mount fails. -/
theorem scr_maybe (e : Env) (cfg : ComposefsConfig) (dp : String)
    (md : List (String × RunVal)) (tr : List Event)
    (hm : cfg.mode = .maybe) (hd : cfg.digest = none)
    (hc : e.haveComposefs = true) (hb : e.bindDeployOk = true) :
    setup_composed_root e cfg dp md tr =
      (if e.lcfsMountOk then
        .ok (tr ++ [.lcfsMountImage false none])
          ⟨true, md ++ [(OTCORE_RUN_BOOTED_KEY_COMPOSEFS, RunVal.vb true)]⟩
       else
        .ok (tr ++ [.lcfsMountImage false none, .bindDeployToTmp dp]) ⟨false, md⟩) := by
  unfold setup_composed_root opStep
  cases hl : e.lcfsMountOk <;>
    simp [hm, hd, hc, hb, hl, OstreeComposefsMode.toNat]

/-- Composed-root setup in `on` mode with a failing mount: fatal, no fallback. -/
theorem scr_on_fail (e : Env) (cfg : ComposefsConfig) (dp : String)
    (md : List (String × RunVal)) (tr : List Event)
    (hm : cfg.mode = .on) (hd : cfg.digest = none)
    (hc : e.haveComposefs = true) (hl : e.lcfsMountOk = false) :
    setup_composed_root e cfg dp md tr =
      .fatal "Failed to mount composefs" (tr ++ [.lcfsMountImage false none]) := by
  unfold setup_composed_root opStep
  simp [hm, hd, hc, hl, OstreeComposefsMode.toNat]

/-- Composed-root setup in `digest` mode with a failing mount: fatal, no
fallback; the attempt enforces the command-line digest. -/
theorem scr_digest_fail (e : Env) (cfg : ComposefsConfig) (dp ds : String)
    (md : List (String × RunVal)) (tr : List Event)
    (hm : cfg.mode = .digest) (hd : cfg.digest = some ds)
    (hc : e.haveComposefs = true) (hl : e.lcfsMountOk = false) :
    setup_composed_root e cfg dp md tr =
      .fatal "Failed to mount composefs" (tr ++ [.lcfsMountImage true (some ds)]) := by
  unfold setup_composed_root opStep
  simp [hm, hd, hc, hl, OstreeComposefsMode.toNat]

/-- Composed-root setup in `signed` mode when signature validation and digest
extraction succeed: the mount is attempted with verity enforcement of the hex
form of the embedded digest; a mount failure is fatal with no fallback. -/
theorem scr_signed (e : Env) (cfg : ComposefsConfig) (dp pk : String)
    (sigs : List SigOutcome) (d : List Nat)
    (md : List (String × RunVal)) (tr : List Event)
    (hm : cfg.mode = .signed) (hk : cfg.pubkey = some pk)
    (hc : e.haveComposefs = true) (hp : e.pubkeyLoadOk = true)
    (hcl : e.commitLoadOk = true) (hs : e.signatures = some sigs)
    (hv : validate_signature sigs = .ok true)
    (hdg : e.cfsDigestV = some d) (hlen : d.length = OSTREE_SHA256_DIGEST_LEN) :
    setup_composed_root e cfg dp md tr =
      (if e.lcfsMountOk then
        .ok (tr ++ [.lcfsMountImage true (some (ot_bin2hex d))])
          ⟨true, md ++ [(OTCORE_RUN_BOOTED_KEY_COMPOSEFS_SIGNATURE, RunVal.vs pk),
                        (OTCORE_RUN_BOOTED_KEY_COMPOSEFS, RunVal.vb true)]⟩
       else
        .fatal "Failed to mount composefs"
          (tr ++ [.lcfsMountImage true (some (ot_bin2hex d))])) := by
  unfold setup_composed_root opStep
  cases hl : e.lcfsMountOk <;>
    simp [hm, hk, hc, hp, hcl, hs, hv, hdg, hlen, hl, OstreeComposefsMode.toNat]

/-- Composed-root setup in `signed` mode with no signature list in the commit
metadata: fatal before any mount attempt. -/
theorem scr_signed_nosigs (e : Env) (cfg : ComposefsConfig) (dp : String)
    (md : List (String × RunVal)) (tr : List Event)
    (hm : cfg.mode = .signed) (hc : e.haveComposefs = true)
    (hp : e.pubkeyLoadOk = true) (hcl : e.commitLoadOk = true)
    (hs : e.signatures = none) :
    setup_composed_root e cfg dp md tr =
      .fatal "Signature validation requested, but no signatures in commit" tr := by
  unfold setup_composed_root opStep
  simp [hm, hc, hp, hcl, hs]

/-- Composed-root setup in `signed` mode when the signature walk hits a
primitive error: the error is fatal at that point. -/
theorem scr_signed_err (e : Env) (cfg : ComposefsConfig) (dp m : String)
    (sigs : List SigOutcome) (md : List (String × RunVal)) (tr : List Event)
    (hm : cfg.mode = .signed) (hc : e.haveComposefs = true)
    (hp : e.pubkeyLoadOk = true) (hcl : e.commitLoadOk = true)
    (hs : e.signatures = some sigs) (hv : validate_signature sigs = .error m) :
    setup_composed_root e cfg dp md tr = .fatal m tr := by
  unfold setup_composed_root opStep
  simp [hm, hc, hp, hcl, hs, hv]

/-- Composed-root setup in `signed` mode when no signature validates. -/
theorem scr_signed_novalid (e : Env) (cfg : ComposefsConfig) (dp : String)
    (sigs : List SigOutcome) (md : List (String × RunVal)) (tr : List Event)
    (hm : cfg.mode = .signed) (hc : e.haveComposefs = true)
    (hp : e.pubkeyLoadOk = true) (hcl : e.commitLoadOk = true)
    (hs : e.signatures = some sigs) (hv : validate_signature sigs = .ok false) :
    setup_composed_root e cfg dp md tr =
      .fatal "No valid signatures found for public key" tr := by
  unfold setup_composed_root opStep
  simp [hm, hc, hp, hcl, hs, hv]

/-- Composed-root setup in `signed` mode when the embedded digest is absent. -/
theorem scr_signed_nodigest (e : Env) (cfg : ComposefsConfig) (dp : String)
    (sigs : List SigOutcome) (md : List (String × RunVal)) (tr : List Event)
    (hm : cfg.mode = .signed) (hc : e.haveComposefs = true)
    (hp : e.pubkeyLoadOk = true) (hcl : e.commitLoadOk = true)
    (hs : e.signatures = some sigs) (hv : validate_signature sigs = .ok true)
    (hdg : e.cfsDigestV = none) :
    setup_composed_root e cfg dp md tr =
      .fatal "Signature validation requested, but no valid digest in commit" tr := by
  unfold setup_composed_root opStep
  simp [hm, hc, hp, hcl, hs, hv, hdg]

/-- Composed-root setup in `signed` mode when the embedded digest has the
wrong size: fatal, no truncation or padding. -/
theorem scr_signed_baddigest (e : Env) (cfg : ComposefsConfig) (dp : String)
    (sigs : List SigOutcome) (d : List Nat)
    (md : List (String × RunVal)) (tr : List Event)
    (hm : cfg.mode = .signed) (hc : e.haveComposefs = true)
    (hp : e.pubkeyLoadOk = true) (hcl : e.commitLoadOk = true)
    (hs : e.signatures = some sigs) (hv : validate_signature sigs = .ok true)
    (hdg : e.cfsDigestV = some d) (hlen : d.length ≠ OSTREE_SHA256_DIGEST_LEN) :
    setup_composed_root e cfg dp md tr =
      .fatal "Signature validation requested, but no valid digest in commit" tr := by
  unfold setup_composed_root opStep
  simp [hm, hc, hp, hcl, hs, hv, hdg, hlen]

/-- Successful-run characterization of the tail phases: explicit trace of all
remaining operations in program order. -/
theorem main_tail_eq (e : Env) (ra rm : String) (ro : Bool) (out : CfsOut)
    (tr : List Event) (hw : e.pathReadonlyFs ra = false)
    (o1 : e.bindBootOk = true) (o2 : e.bindEtcOk = true) (o3 : e.remountEtcOk = true)
    (o4 : e.remountTmpOk = true) (o5 : e.mountUsrOverlayOk = true)
    (o6 : e.bindUsrOk = true) (o7 : e.remountUsrOk = true)
    (o8 : e.bindVarSelfOk = true) (o9 : e.remountVarOk = true)
    (o10 : e.bindVarTmpOk = true) (o11 : e.writeRunBootedOk = true)
    (o12 : e.chdirTmpOk = true) (o13 : e.pivotRootOk = true)
    (o14 : e.moveSysrootOk = true) (o15 : e.moveTmpOk = true)
    (o16 : e.chdirRootOk = true) (o17 : e.rmdirTmpOk = true)
    (o18 : e.remountSysrootROOk = true) (o19 : e.markPrivateOk = true) :
    main_tail e ra rm ro out tr = .ok (tr ++
      ((if e.fsLstatIsSymlink (rm ++ "/boot/loader") && e.fsLstatIsDir "boot"
        then [.bindBoot (rm ++ "/boot")] else []) ++
       (if ro || out.usingComposefs then [.bindEtc, .remountEtcWritable] else []) ++
       (if e.fsLstatExists ".usr-ovl-work" then
          (if e.pathReadonlyFs TMP_SYSROOT then [.remountTmpWritable] else [])
            ++ [.mountUsrOverlay usr_ovl_options]
        else if out.usingComposefs then [] else [.bindUsrSelf, .remountUsrReadonly]) ++
       ((if ro then [.bindVarSelf, .remountVarWritable] else []) ++
        (if !e.haveSystemdAndLibmount || e.fsLstatExists INITRAMFS_MOUNT_VAR
         then [.bindVarToTmp] else [])) ++
       [Event.writeRunBooted (out.md ++ [(OTCORE_RUN_BOOTED_KEY_SYSROOT_RO, RunVal.vb ro)])] ++
       ([Event.chdirTmp] ++
        (if rm = "/" then [.pivotRootSwitch]
         else [.moveRootToSysroot rm, .moveTmpToRoot rm, .chdirRoot, .rmdirTmpSysroot]
           ++ (if ro then [.remountSysrootReadonly] else [])) ++
        [Event.markSysrootPrivate]))) () := by
  unfold main_tail
  simp [hw, prepare_boot_eq, prepare_etc_eq, prepare_usr_eq, prepare_var_eq,
    write_run_state_eq, switch_root_eq, o1, o2, o3, o4, o5, o6, o7, o8, o9, o10,
    o11, o12, o13, o14, o15, o16, o17, o18, o19, List.append_assoc]

/-- Universally quantified elimination for membership over list if-then-else. -/
theorem forall_mem_ite {c : Prop} [Decidable c] {P : α → Prop} {l1 l2 : List α}
    (h1 : ∀ a ∈ l1, P a) (h2 : ∀ a ∈ l2, P a) :
    ∀ a ∈ (if c then l1 else l2), P a := by
  split
  · exact h1
  · exact h2

/-- C6: deployment resolution is fatal in five distinct cases with distinct
diagnostics — target parameter absent, path not found, path not a symbolic
link, realpath failure, stat failure — and on success returns the canonical
resolved deploy path.  The final clause shows the five diagnostics pairwise
distinct at a representative instantiation. -/
theorem resolve_deploy_path_characterization (e : Env) (rm : String) :
    (e.ostreeTarget = none →
      resolve_deploy_path e rm = .error "No ostree= cmdline") ∧
    (∀ tg, e.ostreeTarget = some tg → e.lstatDest = none →
      resolve_deploy_path e rm
        = .error ("Couldnt find specified OSTree root " ++ (rm ++ "/" ++ tg))) ∧
    (∀ tg, e.ostreeTarget = some tg → e.lstatDest = some false →
      resolve_deploy_path e rm
        = .error ("OSTree target is not a symbolic link: " ++ (rm ++ "/" ++ tg))) ∧
    (∀ tg, e.ostreeTarget = some tg → e.lstatDest = some true → e.realpathDest = none →
      resolve_deploy_path e rm
        = .error ("realpath(" ++ (rm ++ "/" ++ tg) ++ ") failed")) ∧
    (∀ tg dp, e.ostreeTarget = some tg → e.lstatDest = some true →
      e.realpathDest = some dp → e.statDeployOk = false →
      resolve_deploy_path e rm = .error ("stat(" ++ dp ++ ") failed")) ∧
    (∀ tg dp, e.ostreeTarget = some tg → e.lstatDest = some true →
      e.realpathDest = some dp → e.statDeployOk = true →
      resolve_deploy_path e rm = .ok dp) ∧
    List.Pairwise (· ≠ ·)
      ["No ostree= cmdline",
       "Couldnt find specified OSTree root /sysroot/ostree/boot.1/default/0/0",
       "OSTree target is not a symbolic link: /sysroot/ostree/boot.1/default/0/0",
       "realpath(/sysroot/ostree/boot.1/default/0/0) failed",
       "stat(/sysroot/ostree/deploy/default/deploy/abc.0) failed"] := by
  refine ⟨?_, ?_, ?_, ?_, ?_, ?_, ?_⟩
  · intro h; simp [resolve_deploy_path, h]
  · intro tg h1 h2; simp [resolve_deploy_path, h1, h2]
  · intro tg h1 h2; simp [resolve_deploy_path, h1, h2]
  · intro tg h1 h2 h3; simp [resolve_deploy_path, h1, h2, h3]
  · intro tg dp h1 h2 h3 h4; simp [resolve_deploy_path, h1, h2, h3, h4]
  · intro tg dp h1 h2 h3 h4; simp [resolve_deploy_path, h1, h2, h3, h4]
  · decide

/-- Witness for C6: the success case of resolution at a concrete environment. -/
theorem resolve_deploy_path_characterization_witness :
    resolve_deploy_path envBase "/sysroot" = .ok "/sysroot/ostree/deploy/default/deploy/abc.0" :=
  (resolve_deploy_path_characterization envBase "/sysroot").2.2.2.2.2.1
    "ostree/boot.1/default/0/0" "/sysroot/ostree/deploy/default/deploy/abc.0" rfl rfl rfl rfl

/-- C10: when the repository configuration declares the sysroot read-only by
policy but the physical root filesystem is not currently writable at mount
construction time, the run aborts fatally. -/
theorem sysroot_readonly_requires_writable (e : Env) (ra rm tg dp : String)
    (cfg : ComposefsConfig)
    (h1 : e.argv1 = some ra) (h2 : e.procCmdlineStat = some true)
    (h3 : e.realpathRoot = some rm) (h4 : e.ostreeTarget = some tg)
    (h5 : e.lstatDest = some true) (h6 : e.realpathDest = some dp)
    (h7 : e.statDeployOk = true) (h8 : parse_ot_composefs e.otComposefs = .ok cfg)
    (h9 : e.haveComposefs = true) (h10 : e.remountRootPrivateOk = true)
    (h11 : e.mkdirTmpOk = true) (h12 : e.chdirDeployOk = true)
    (hm : cfg.mode = .off) (hb : e.bindDeployOk = true)
    (hro : sysroot_is_configured_ro e.repoConfig = true)
    (hw : e.pathReadonlyFs ra = true) :
    main_run e = .fatal
      ("sysroot.readonly=true requires " ++ ra ++ " to be writable at this point")
      [.remountRootPrivate, .mkdirTmpSysroot, .chdirDeploy, .bindDeployToTmp dp] := by
  rw [main_run_eq e ra rm tg dp cfg h1 h2 h3 h4 h5 h6 h7 h8 h9 h10 h11 h12]
  rw [scr_off e cfg dp [] _ hm hb]
  unfold main_tail
  simp [hro, hw]

/-- Witness for C10 at a concrete environment with read-only policy and a
currently read-only physical root. -/
theorem sysroot_readonly_requires_writable_witness :
    main_run { envBase with repoConfig := some true, pathReadonlyFs := fun _ => true }
      = .fatal "sysroot.readonly=true requires /sysroot to be writable at this point"
        [.remountRootPrivate, .mkdirTmpSysroot, .chdirDeploy,
         .bindDeployToTmp "/sysroot/ostree/deploy/default/deploy/abc.0"] := by
  have h := sysroot_readonly_requires_writable
    { envBase with repoConfig := some true, pathReadonlyFs := fun _ => true }
    "/sysroot" "/sysroot" "ostree/boot.1/default/0/0"
    "/sysroot/ostree/deploy/default/deploy/abc.0" ⟨.off, none, none⟩
    rfl rfl rfl rfl rfl rfl rfl rfl rfl rfl rfl rfl rfl rfl rfl rfl
  simpa using h

/-- C5: staging /usr policy.  With the persistent-overlay marker present in
the deployment directory, an overlay is mounted over /usr, preceded by a
writable remount of the staging tree exactly when it is currently read-only;
with no marker and no composed image, /usr is bind mounted onto itself and
remounted read-only in a second step; with no marker and a composed image in
use, /usr is left untouched. -/
theorem usr_overlay_or_readonly_bind (e : Env) (u : Bool) (tr : List Event)
    (h1 : e.remountTmpOk = true) (h2 : e.mountUsrOverlayOk = true)
    (h3 : e.bindUsrOk = true) (h4 : e.remountUsrOk = true) :
    (e.fsLstatExists ".usr-ovl-work" = true →
      prepare_usr e u tr = .ok (tr ++
        ((if e.pathReadonlyFs TMP_SYSROOT then [.remountTmpWritable] else [])
          ++ [.mountUsrOverlay usr_ovl_options])) ()) ∧
    (e.fsLstatExists ".usr-ovl-work" = false → u = false →
      prepare_usr e u tr = .ok (tr ++ [.bindUsrSelf, .remountUsrReadonly]) ()) ∧
    (e.fsLstatExists ".usr-ovl-work" = false → u = true →
      prepare_usr e u tr = .ok tr ()) := by
  refine ⟨?_, ?_, ?_⟩
  · intro hm
    rw [prepare_usr_eq e u tr h1 h2 h3 h4]
    simp [hm]
  · intro hm hu
    subst hu
    rw [prepare_usr_eq e false tr h1 h2 h3 h4]
    simp [hm]
  · intro hm hu
    subst hu
    rw [prepare_usr_eq e true tr h1 h2 h3 h4]
    simp [hm]

/-- Witness for C5: the read-only double bind case at a concrete environment. -/
theorem usr_overlay_or_readonly_bind_witness :
    prepare_usr envBase false [] = .ok [.bindUsrSelf, .remountUsrReadonly] () := by
  have h := (usr_overlay_or_readonly_bind envBase false [] rfl rfl rfl rfl).2.1 rfl rfl
  simpa using h

/-- Counterexample for C4: a successful run in which the physical root has a
`/boot/loader` symlink but the deployment itself does not; `/boot` is still
bind mounted, so the bind is not conditioned on the deployment-local
`/boot/loader` symlink which the claim names. -/
theorem boot_bind_deployment_loader_cex :
    main_run envC4 = Run.ok
      [.remountRootPrivate, .mkdirTmpSysroot, .chdirDeploy,
       .bindDeployToTmp "/sysroot/ostree/deploy/default/deploy/abc.0",
       .bindBoot "/sysroot/boot", .bindUsrSelf, .remountUsrReadonly,
       .writeRunBooted [("sysroot-ro", RunVal.vb false)],
       .chdirTmp, .moveRootToSysroot "/sysroot", .moveTmpToRoot "/sysroot",
       .chdirRoot, .rmdirTmpSysroot, .markSysrootPrivate] () ∧
    envC4.fsLstatIsSymlink "/sysroot/ostree/deploy/default/deploy/abc.0/boot/loader" = false ∧
    envC4.fsLstatIsSymlink "/sysroot/boot/loader" = true := by
  exact ⟨by decide, by decide, by decide⟩

/-- C4 (amended): in every successful run, the physical root /boot is bind
mounted into the staging tree exactly when the PHYSICAL ROOT path
`root_mountpoint/boot/loader` is a symbolic link and the deployment has a
local `boot` directory; otherwise the staging /boot is left untouched. -/
theorem boot_bind_mount_iff_physical_loader (e : Env) (ra rm tg dp : String)
    (cfg : ComposefsConfig)
    (h1 : e.argv1 = some ra) (h2 : e.procCmdlineStat = some true)
    (h3 : e.realpathRoot = some rm) (h4 : e.ostreeTarget = some tg)
    (h5 : e.lstatDest = some true) (h6 : e.realpathDest = some dp)
    (h7 : e.statDeployOk = true) (h8 : parse_ot_composefs e.otComposefs = .ok cfg)
    (h9 : e.haveComposefs = true) (h10 : e.remountRootPrivateOk = true)
    (h11 : e.mkdirTmpOk = true) (h12 : e.chdirDeployOk = true)
    (hm : cfg.mode = .off) (hops : opsOk e) (hw : e.pathReadonlyFs ra = false) :
    ∀ tr, main_run e = .ok tr () →
      (Event.bindBoot (rm ++ "/boot") ∈ tr ↔
        (e.fsLstatIsSymlink (rm ++ "/boot/loader") = true ∧ e.fsLstatIsDir "boot" = true)) := by
  obtain ⟨p1, p2, p3, p4, p5, p6, p7, p8, p9, p10, p11, p12, p13, p14, p15, p16,
    p17, p18, p19, p20, p21, p22, p23, p24, p25, p26⟩ := hops
  intro tr htr
  rw [main_run_eq e ra rm tg dp cfg h1 h2 h3 h4 h5 h6 h7 h8 h9 h10 h11 h12] at htr
  rw [scr_off e cfg dp [] [.remountRootPrivate, .mkdirTmpSysroot, .chdirDeploy] hm p7] at htr
  have htr2 : main_tail e ra rm (sysroot_is_configured_ro e.repoConfig) ⟨false, []⟩
      ([Event.remountRootPrivate, Event.mkdirTmpSysroot, Event.chdirDeploy]
        ++ [Event.bindDeployToTmp dp]) = Run.ok tr () := htr
  rw [main_tail_eq e ra rm (sysroot_is_configured_ro e.repoConfig) ⟨false, []⟩ _ hw
    p8 p9 p10 p11 p12 p13 p14 p15 p16 p17 p18 p19 p20 p21 p22 p23 p24 p25 p26] at htr2
  injection htr2 with hT hV
  subst hT
  cases hb1 : e.fsLstatIsSymlink (rm ++ "/boot/loader") <;>
    cases hb2 : e.fsLstatIsDir "boot" <;>
      simp [hb1, hb2, mem_ite_list, List.mem_append]

/-- Witness for C4 (amended): at a concrete environment whose physical root
has the loader symlink, the bind-boot event is present in the successful
trace. -/
theorem boot_bind_mount_iff_physical_loader_witness :
    Event.bindBoot ("/sysroot" ++ "/boot") ∈
      ([.remountRootPrivate, .mkdirTmpSysroot, .chdirDeploy,
        .bindDeployToTmp "/sysroot/ostree/deploy/default/deploy/abc.0",
        .bindBoot "/sysroot/boot", .bindUsrSelf, .remountUsrReadonly,
        .writeRunBooted [("sysroot-ro", RunVal.vb false)],
        .chdirTmp, .moveRootToSysroot "/sysroot", .moveTmpToRoot "/sysroot",
        .chdirRoot, .rmdirTmpSysroot, .markSysrootPrivate] : List Event) := by
  have h := boot_bind_mount_iff_physical_loader envC4 "/sysroot" "/sysroot"
    "ostree/boot.1/default/0/0" "/sysroot/ostree/deploy/default/deploy/abc.0"
    ⟨.off, none, none⟩ rfl rfl rfl rfl rfl rfl rfl rfl rfl rfl rfl rfl rfl
    ⟨rfl, rfl, rfl, rfl, rfl, rfl, rfl, rfl, rfl, rfl, rfl, rfl, rfl, rfl, rfl, rfl, rfl, rfl, rfl, rfl, rfl, rfl, rfl, rfl, rfl, rfl⟩ rfl
    [.remountRootPrivate, .mkdirTmpSysroot, .chdirDeploy,
     .bindDeployToTmp "/sysroot/ostree/deploy/default/deploy/abc.0",
     .bindBoot "/sysroot/boot", .bindUsrSelf, .remountUsrReadonly,
     .writeRunBooted [("sysroot-ro", RunVal.vb false)],
     .chdirTmp, .moveRootToSysroot "/sysroot", .moveTmpToRoot "/sysroot",
     .chdirRoot, .rmdirTmpSysroot, .markSysrootPrivate] (by decide)
  exact h.mpr ⟨by decide, by decide⟩

/-- C1: when a composed-image mount is attempted and the mount fails, the
outcome depends on the policy mode only.  In `maybe` mode the run continues,
falling back to a plain bind mount of the resolved deployment directory onto
the staging mountpoint; in `on`, `signed` and `digest` modes the run aborts
fatally with no bind-mount fallback. -/
theorem composefs_mount_failure_policy (e : Env) (ra rm tg dp : String)
    (cfg : ComposefsConfig)
    (h1 : e.argv1 = some ra) (h2 : e.procCmdlineStat = some true)
    (h3 : e.realpathRoot = some rm) (h4 : e.ostreeTarget = some tg)
    (h5 : e.lstatDest = some true) (h6 : e.realpathDest = some dp)
    (h7 : e.statDeployOk = true) (h8 : parse_ot_composefs e.otComposefs = .ok cfg)
    (h9 : e.haveComposefs = true) (h10 : e.remountRootPrivateOk = true)
    (h11 : e.mkdirTmpOk = true) (h12 : e.chdirDeployOk = true)
    (hl : e.lcfsMountOk = false) (hops : opsOk e)
    (hw : e.pathReadonlyFs ra = false)
    (hb1 : e.fsLstatIsSymlink (rm ++ "/boot/loader") = false)
    (hb2 : e.fsLstatExists ".usr-ovl-work" = false)
    (hb3 : sysroot_is_configured_ro e.repoConfig = false)
    (hb4 : e.haveSystemdAndLibmount = true)
    (hb5 : e.fsLstatExists INITRAMFS_MOUNT_VAR = false)
    (hb6 : rm ≠ "/") :
    (cfg.mode = .maybe → cfg.digest = none →
      main_run e = .ok
        [.remountRootPrivate, .mkdirTmpSysroot, .chdirDeploy,
         .lcfsMountImage false none, .bindDeployToTmp dp,
         .bindUsrSelf, .remountUsrReadonly,
         .writeRunBooted [(OTCORE_RUN_BOOTED_KEY_SYSROOT_RO, RunVal.vb false)],
         .chdirTmp, .moveRootToSysroot rm, .moveTmpToRoot rm,
         .chdirRoot, .rmdirTmpSysroot, .markSysrootPrivate] () ∧
      Event.bindDeployToTmp dp ∈
        [Event.remountRootPrivate, Event.mkdirTmpSysroot, Event.chdirDeploy,
         Event.lcfsMountImage false none, Event.bindDeployToTmp dp,
         Event.bindUsrSelf, Event.remountUsrReadonly,
         Event.writeRunBooted [(OTCORE_RUN_BOOTED_KEY_SYSROOT_RO, RunVal.vb false)],
         Event.chdirTmp, Event.moveRootToSysroot rm, Event.moveTmpToRoot rm,
         Event.chdirRoot, Event.rmdirTmpSysroot, Event.markSysrootPrivate]) ∧
    (cfg.mode = .on → cfg.digest = none →
      main_run e = .fatal "Failed to mount composefs"
        [.remountRootPrivate, .mkdirTmpSysroot, .chdirDeploy, .lcfsMountImage false none] ∧
      ∀ p, Event.bindDeployToTmp p ∉
        [Event.remountRootPrivate, Event.mkdirTmpSysroot, Event.chdirDeploy,
         Event.lcfsMountImage false none]) ∧
    (cfg.mode = .digest → ∀ ds, cfg.digest = some ds →
      main_run e = .fatal "Failed to mount composefs"
        [.remountRootPrivate, .mkdirTmpSysroot, .chdirDeploy,
         .lcfsMountImage true (some ds)] ∧
      ∀ p, Event.bindDeployToTmp p ∉
        [Event.remountRootPrivate, Event.mkdirTmpSysroot, Event.chdirDeploy,
         Event.lcfsMountImage true (some ds)]) ∧
    (cfg.mode = .signed → ∀ pk sigs d, cfg.pubkey = some pk →
      e.signatures = some sigs → validate_signature sigs = .ok true →
      e.cfsDigestV = some d → d.length = OSTREE_SHA256_DIGEST_LEN →
      main_run e = .fatal "Failed to mount composefs"
        [.remountRootPrivate, .mkdirTmpSysroot, .chdirDeploy,
         .lcfsMountImage true (some (ot_bin2hex d))] ∧
      ∀ p, Event.bindDeployToTmp p ∉
        [Event.remountRootPrivate, Event.mkdirTmpSysroot, Event.chdirDeploy,
         Event.lcfsMountImage true (some (ot_bin2hex d))]) := by
  obtain ⟨p1, p2, p3, p4, p5, p6, p7, p8, p9, p10, p11, p12, p13, p14, p15, p16,
    p17, p18, p19, p20, p21, p22, p23, p24, p25, p26⟩ := hops
  rw [main_run_eq e ra rm tg dp cfg h1 h2 h3 h4 h5 h6 h7 h8 h9 h10 h11 h12]
  refine ⟨?_, ?_, ?_, ?_⟩
  · intro hm hd
    rw [scr_maybe e cfg dp [] [.remountRootPrivate, .mkdirTmpSysroot, .chdirDeploy] hm hd h9 p7]
    rw [if_neg (by simp [hl])]
    refine ⟨?_, by simp⟩
    have step : main_tail e ra rm (sysroot_is_configured_ro e.repoConfig) ⟨false, []⟩
        ([Event.remountRootPrivate, Event.mkdirTmpSysroot, Event.chdirDeploy]
          ++ [Event.lcfsMountImage false none, Event.bindDeployToTmp dp]) =
        Run.ok
          [Event.remountRootPrivate, Event.mkdirTmpSysroot, Event.chdirDeploy,
           Event.lcfsMountImage false none, Event.bindDeployToTmp dp,
           Event.bindUsrSelf, Event.remountUsrReadonly,
           Event.writeRunBooted [(OTCORE_RUN_BOOTED_KEY_SYSROOT_RO, RunVal.vb false)],
           Event.chdirTmp, Event.moveRootToSysroot rm, Event.moveTmpToRoot rm,
           Event.chdirRoot, Event.rmdirTmpSysroot, Event.markSysrootPrivate] () := by
      rw [main_tail_eq e ra rm (sysroot_is_configured_ro e.repoConfig) ⟨false, []⟩ _ hw
        p8 p9 p10 p11 p12 p13 p14 p15 p16 p17 p18 p19 p20 p21 p22 p23 p24 p25 p26]
      simp [hb1, hb2, hb3, hb4, hb5, hb6]
    exact step
  · intro hm hd
    rw [scr_on_fail e cfg dp [] [.remountRootPrivate, .mkdirTmpSysroot, .chdirDeploy]
      hm hd h9 hl]
    exact ⟨rfl, by simp⟩
  · intro hm ds hd
    rw [scr_digest_fail e cfg dp ds [] [.remountRootPrivate, .mkdirTmpSysroot, .chdirDeploy]
      hm hd h9 hl]
    exact ⟨rfl, by simp⟩
  · intro hm pk sigs d hk hs hv hdg hlen
    rw [scr_signed e cfg dp pk sigs d [] [.remountRootPrivate, .mkdirTmpSysroot, .chdirDeploy]
      hm hk h9 p5 p6 hs hv hdg hlen]
    rw [if_neg (by simp [hl])]
    exact ⟨rfl, by simp⟩

/-- Witness for C1: the maybe-mode fallback at a concrete environment with a
failing composefs mount. -/
theorem composefs_mount_failure_policy_witness :
    main_run { envBase with otComposefs := some "maybe", lcfsMountOk := false } = .ok
      [.remountRootPrivate, .mkdirTmpSysroot, .chdirDeploy,
       .lcfsMountImage false none,
       .bindDeployToTmp "/sysroot/ostree/deploy/default/deploy/abc.0",
       .bindUsrSelf, .remountUsrReadonly,
       .writeRunBooted [(OTCORE_RUN_BOOTED_KEY_SYSROOT_RO, RunVal.vb false)],
       .chdirTmp, .moveRootToSysroot "/sysroot", .moveTmpToRoot "/sysroot",
       .chdirRoot, .rmdirTmpSysroot, .markSysrootPrivate] () := by
  have h := (composefs_mount_failure_policy
    { envBase with otComposefs := some "maybe", lcfsMountOk := false }
    "/sysroot" "/sysroot" "ostree/boot.1/default/0/0"
    "/sysroot/ostree/deploy/default/deploy/abc.0" ⟨.maybe, none, none⟩
    rfl rfl rfl rfl rfl rfl rfl rfl rfl rfl rfl rfl rfl
    ⟨rfl, rfl, rfl, rfl, rfl, rfl, rfl, rfl, rfl, rfl, rfl, rfl, rfl, rfl, rfl, rfl, rfl, rfl, rfl, rfl, rfl, rfl, rfl, rfl, rfl, rfl⟩
    rfl rfl rfl rfl rfl rfl (by decide)).1 rfl rfl
  exact h.1

/-- C2: in RequiredSigned mode, an absent detached-signature list is fatal;
signatures are checked in order with short-circuit on the first valid one
(later entries need not validate); and if no signature validates the run is
fatal, before any mount operation of the staging phases. -/
theorem required_signed_signature_validation (e : Env) (ra rm tg dp pk : String)
    (cfg : ComposefsConfig)
    (h1 : e.argv1 = some ra) (h2 : e.procCmdlineStat = some true)
    (h3 : e.realpathRoot = some rm) (h4 : e.ostreeTarget = some tg)
    (h5 : e.lstatDest = some true) (h6 : e.realpathDest = some dp)
    (h7 : e.statDeployOk = true) (h8 : parse_ot_composefs e.otComposefs = .ok cfg)
    (h9 : e.haveComposefs = true) (h10 : e.remountRootPrivateOk = true)
    (h11 : e.mkdirTmpOk = true) (h12 : e.chdirDeployOk = true)
    (hm : cfg.mode = .signed) (hk : cfg.pubkey = some pk)
    (hp : e.pubkeyLoadOk = true) (hcl : e.commitLoadOk = true) :
    (e.signatures = none →
      main_run e = .fatal "Signature validation requested, but no signatures in commit"
        [.remountRootPrivate, .mkdirTmpSysroot, .chdirDeploy]) ∧
    (∀ pre post, (∀ s ∈ pre, s = SigOutcome.res false) →
      validate_signature (pre ++ SigOutcome.res true :: post) = .ok true) ∧
    (∀ sigs, e.signatures = some sigs → (∀ s ∈ sigs, s = SigOutcome.res false) →
      main_run e = .fatal "No valid signatures found for public key"
        [.remountRootPrivate, .mkdirTmpSysroot, .chdirDeploy]) := by
  refine ⟨?_, validate_first_valid, ?_⟩
  · intro hs
    rw [main_run_eq e ra rm tg dp cfg h1 h2 h3 h4 h5 h6 h7 h8 h9 h10 h11 h12]
    rw [scr_signed_nosigs e cfg dp [] [.remountRootPrivate, .mkdirTmpSysroot, .chdirDeploy]
      hm h9 hp hcl hs]
  · intro sigs hs hall
    rw [main_run_eq e ra rm tg dp cfg h1 h2 h3 h4 h5 h6 h7 h8 h9 h10 h11 h12]
    rw [scr_signed_novalid e cfg dp sigs [] [.remountRootPrivate, .mkdirTmpSysroot, .chdirDeploy]
      hm h9 hp hcl hs (validate_all_false sigs hall)]

/-- Witness for C2: the missing-signature-list case at a concrete environment. -/
theorem required_signed_signature_validation_witness :
    main_run { envBase with
        otComposefs := some "signed=/etc/ostree/key.pub",
        signatures := none }
      = .fatal "Signature validation requested, but no signatures in commit"
        [.remountRootPrivate, .mkdirTmpSysroot, .chdirDeploy] :=
  (required_signed_signature_validation
    { envBase with
        otComposefs := some "signed=/etc/ostree/key.pub",
        signatures := none }
    "/sysroot" "/sysroot" "ostree/boot.1/default/0/0"
    "/sysroot/ostree/deploy/default/deploy/abc.0" "/etc/ostree/key.pub"
    ⟨.signed, none, some "/etc/ostree/key.pub"⟩
    rfl rfl rfl rfl rfl rfl rfl rfl rfl rfl rfl rfl rfl rfl rfl rfl).1 rfl

/-- C9: during RequiredSigned validation, a signature-verification primitive
error occurring before the first valid signature is fatal at that point, even
when a later signature in the list would have validated. -/
theorem signature_error_short_circuit_fatal (e : Env) (ra rm tg dp pk m : String)
    (cfg : ComposefsConfig) (pre post : List SigOutcome)
    (h1 : e.argv1 = some ra) (h2 : e.procCmdlineStat = some true)
    (h3 : e.realpathRoot = some rm) (h4 : e.ostreeTarget = some tg)
    (h5 : e.lstatDest = some true) (h6 : e.realpathDest = some dp)
    (h7 : e.statDeployOk = true) (h8 : parse_ot_composefs e.otComposefs = .ok cfg)
    (h9 : e.haveComposefs = true) (h10 : e.remountRootPrivateOk = true)
    (h11 : e.mkdirTmpOk = true) (h12 : e.chdirDeployOk = true)
    (hm : cfg.mode = .signed) (hk : cfg.pubkey = some pk)
    (hp : e.pubkeyLoadOk = true) (hcl : e.commitLoadOk = true)
    (hs : e.signatures = some (pre ++ SigOutcome.err m :: post))
    (hpre : ∀ s ∈ pre, s = SigOutcome.res false)
    (hlater : SigOutcome.res true ∈ post) :
    main_run e = .fatal ("signature verification failed: " ++ m)
      [.remountRootPrivate, .mkdirTmpSysroot, .chdirDeploy] := by
  rw [main_run_eq e ra rm tg dp cfg h1 h2 h3 h4 h5 h6 h7 h8 h9 h10 h11 h12]
  rw [scr_signed_err e cfg dp ("signature verification failed: " ++ m)
    (pre ++ SigOutcome.err m :: post) []
    [.remountRootPrivate, .mkdirTmpSysroot, .chdirDeploy]
    hm h9 hp hcl hs (validate_error_first pre post m hpre)]

/-- Witness for C9: a concrete environment whose signature list has an invalid
entry, then a primitive error, then a signature that would validate. -/
theorem signature_error_short_circuit_fatal_witness :
    main_run { envBase with
        otComposefs := some "signed=/etc/ostree/key.pub",
        signatures := some [.res false, .err "corrupt blob", .res true] }
      = .fatal "signature verification failed: corrupt blob"
        [.remountRootPrivate, .mkdirTmpSysroot, .chdirDeploy] := by
  have h := signature_error_short_circuit_fatal
    { envBase with
        otComposefs := some "signed=/etc/ostree/key.pub",
        signatures := some [.res false, .err "corrupt blob", .res true] }
    "/sysroot" "/sysroot" "ostree/boot.1/default/0/0"
    "/sysroot/ostree/deploy/default/deploy/abc.0" "/etc/ostree/key.pub" "corrupt blob"
    ⟨.signed, none, some "/etc/ostree/key.pub"⟩
    [SigOutcome.res false] [SigOutcome.res true]
    rfl rfl rfl rfl rfl rfl rfl rfl rfl rfl rfl rfl rfl rfl rfl rfl rfl
    (by simp) (by simp)
  simpa using h

/-- C3: in RequiredSigned mode after signature validation succeeds, the
embedded integrity digest is extracted from the commit payload metadata; the
run aborts fatally when it is absent or not exactly 32 bytes, and otherwise
the composed-image mount is invoked with verity enforcement set to exactly
that digest value (in hex form). -/
theorem required_signed_digest_enforcement (e : Env) (ra rm tg dp pk : String)
    (cfg : ComposefsConfig) (sigs : List SigOutcome)
    (h1 : e.argv1 = some ra) (h2 : e.procCmdlineStat = some true)
    (h3 : e.realpathRoot = some rm) (h4 : e.ostreeTarget = some tg)
    (h5 : e.lstatDest = some true) (h6 : e.realpathDest = some dp)
    (h7 : e.statDeployOk = true) (h8 : parse_ot_composefs e.otComposefs = .ok cfg)
    (h9 : e.haveComposefs = true) (h10 : e.remountRootPrivateOk = true)
    (h11 : e.mkdirTmpOk = true) (h12 : e.chdirDeployOk = true)
    (hm : cfg.mode = .signed) (hk : cfg.pubkey = some pk)
    (hops : opsOk e) (hsig : e.signatures = some sigs)
    (hv : validate_signature sigs = .ok true)
    (hw : e.pathReadonlyFs ra = false) :
    (e.cfsDigestV = none →
      main_run e = .fatal "Signature validation requested, but no valid digest in commit"
        [.remountRootPrivate, .mkdirTmpSysroot, .chdirDeploy]) ∧
    (∀ d, e.cfsDigestV = some d → d.length ≠ OSTREE_SHA256_DIGEST_LEN →
      main_run e = .fatal "Signature validation requested, but no valid digest in commit"
        [.remountRootPrivate, .mkdirTmpSysroot, .chdirDeploy]) ∧
    (∀ d, e.cfsDigestV = some d → d.length = OSTREE_SHA256_DIGEST_LEN →
      e.lcfsMountOk = true →
      ∀ tr, main_run e = .ok tr () →
        Event.lcfsMountImage true (some (ot_bin2hex d)) ∈ tr) := by
  obtain ⟨p1, p2, p3, p4, p5, p6, p7, p8, p9, p10, p11, p12, p13, p14, p15, p16,
    p17, p18, p19, p20, p21, p22, p23, p24, p25, p26⟩ := hops
  refine ⟨?_, ?_, ?_⟩
  · intro hdg
    rw [main_run_eq e ra rm tg dp cfg h1 h2 h3 h4 h5 h6 h7 h8 h9 h10 h11 h12]
    rw [scr_signed_nodigest e cfg dp sigs []
      [.remountRootPrivate, .mkdirTmpSysroot, .chdirDeploy] hm h9 p5 p6 hsig hv hdg]
  · intro d hdg hlen
    rw [main_run_eq e ra rm tg dp cfg h1 h2 h3 h4 h5 h6 h7 h8 h9 h10 h11 h12]
    rw [scr_signed_baddigest e cfg dp sigs d []
      [.remountRootPrivate, .mkdirTmpSysroot, .chdirDeploy] hm h9 p5 p6 hsig hv hdg hlen]
  · intro d hdg hlen hl tr htr
    rw [main_run_eq e ra rm tg dp cfg h1 h2 h3 h4 h5 h6 h7 h8 h9 h10 h11 h12] at htr
    rw [scr_signed e cfg dp pk sigs d []
      [.remountRootPrivate, .mkdirTmpSysroot, .chdirDeploy]
      hm hk h9 p5 p6 hsig hv hdg hlen] at htr
    rw [if_pos hl] at htr
    have htr2 : main_tail e ra rm (sysroot_is_configured_ro e.repoConfig)
        ⟨true, [] ++ [(OTCORE_RUN_BOOTED_KEY_COMPOSEFS_SIGNATURE, RunVal.vs pk),
                      (OTCORE_RUN_BOOTED_KEY_COMPOSEFS, RunVal.vb true)]⟩
        ([Event.remountRootPrivate, Event.mkdirTmpSysroot, Event.chdirDeploy]
          ++ [Event.lcfsMountImage true (some (ot_bin2hex d))]) = Run.ok tr () := htr
    rw [main_tail_eq e ra rm (sysroot_is_configured_ro e.repoConfig) _ _ hw
      p8 p9 p10 p11 p12 p13 p14 p15 p16 p17 p18 p19 p20 p21 p22 p23 p24 p25 p26] at htr2
    injection htr2 with hT hV
    subst hT
    simp [List.mem_append]

/-- Witness for C3: a full signed-mode run at a concrete environment; the
mount is invoked with verity enforcement of the embedded 32-byte digest. -/
theorem required_signed_digest_enforcement_witness :
    Event.lcfsMountImage true (some (ot_bin2hex (List.replicate 32 171))) ∈
      ([.remountRootPrivate, .mkdirTmpSysroot, .chdirDeploy,
        .lcfsMountImage true (some (ot_bin2hex (List.replicate 32 171))),
        .bindEtc, .remountEtcWritable,
        .writeRunBooted
          [(OTCORE_RUN_BOOTED_KEY_COMPOSEFS_SIGNATURE, RunVal.vs "/etc/ostree/key.pub"),
           (OTCORE_RUN_BOOTED_KEY_COMPOSEFS, RunVal.vb true),
           (OTCORE_RUN_BOOTED_KEY_SYSROOT_RO, RunVal.vb false)],
        .chdirTmp, .moveRootToSysroot "/sysroot", .moveTmpToRoot "/sysroot",
        .chdirRoot, .rmdirTmpSysroot, .markSysrootPrivate] : List Event) := by
  have h := (required_signed_digest_enforcement
    { envBase with otComposefs := some "signed=/etc/ostree/key.pub" }
    "/sysroot" "/sysroot" "ostree/boot.1/default/0/0"
    "/sysroot/ostree/deploy/default/deploy/abc.0" "/etc/ostree/key.pub"
    ⟨.signed, none, some "/etc/ostree/key.pub"⟩ [.res true]
    rfl rfl rfl rfl rfl rfl rfl rfl rfl rfl rfl rfl rfl rfl
    ⟨rfl, rfl, rfl, rfl, rfl, rfl, rfl, rfl, rfl, rfl, rfl, rfl, rfl, rfl, rfl, rfl,
     rfl, rfl, rfl, rfl, rfl, rfl, rfl, rfl, rfl, rfl⟩
    rfl rfl rfl).2.2 (List.replicate 32 171) rfl rfl rfl
    [.remountRootPrivate, .mkdirTmpSysroot, .chdirDeploy,
     .lcfsMountImage true (some (ot_bin2hex (List.replicate 32 171))),
     .bindEtc, .remountEtcWritable,
     .writeRunBooted
       [(OTCORE_RUN_BOOTED_KEY_COMPOSEFS_SIGNATURE, RunVal.vs "/etc/ostree/key.pub"),
        (OTCORE_RUN_BOOTED_KEY_COMPOSEFS, RunVal.vb true),
        (OTCORE_RUN_BOOTED_KEY_SYSROOT_RO, RunVal.vb false)],
     .chdirTmp, .moveRootToSysroot "/sysroot", .moveTmpToRoot "/sysroot",
     .chdirRoot, .rmdirTmpSysroot, .markSysrootPrivate] (by decide)
  exact h

/-- Universally quantified membership over a list if-then-else as an iff. -/
theorem forall_mem_ite_iff {c : Prop} [Decidable c] {P : α → Prop} {l1 l2 : List α} :
    (∀ a ∈ (if c then l1 else l2), P a) ↔
      (if c then (∀ a ∈ l1, P a) else (∀ a ∈ l2, P a)) := by
  split <;> rfl

/-- Counterexample for C7: with `/proc/cmdline` initially absent, the program
mounts proc before resolving the deployment; when the target symlink is then
found missing, the process exits non-zero with that mount already performed,
so resolution failure does not leave the mount namespace free of mount side
effects. -/
theorem resolve_failure_mount_side_effect_cex :
    main_run envC7 = Run.fatal
      "Couldnt find specified OSTree root /sysroot/ostree/boot.1/default/0/0"
      [Event.mountProcOnProc] := by
  decide

/-- C7 (amended): when the deployment-target symlink is absent, the process
exits non-zero before any mount operation is attempted other than the
transient mount of proc performed only when `/proc/cmdline` is initially
absent; in particular, with `/proc/cmdline` present the trace is empty. -/
theorem resolve_failure_no_mount_except_proc (e : Env) (ra rm tg : String) (b : Bool)
    (h1 : e.argv1 = some ra) (h2 : e.procCmdlineStat = some b)
    (hmp : e.mountProcOk = true)
    (h3 : e.realpathRoot = some rm) (h4 : e.ostreeTarget = some tg)
    (h5 : e.lstatDest = none) :
    main_run e = .fatal ("Couldnt find specified OSTree root " ++ (rm ++ "/" ++ tg))
      (if b then [] else [.mountProcOnProc]) ∧
    ∀ ev ∈ (if b then ([] : List Event) else [.mountProcOnProc]),
      ev = Event.mountProcOnProc := by
  cases b <;>
    exact ⟨by simp [main_run, resolve_deploy_path, opStep, h1, h2, hmp, h3, h4, h5],
           by simp⟩

/-- Witness for C7 (amended): with `/proc/cmdline` present and the target
symlink absent, the failing run has an empty trace. -/
theorem resolve_failure_no_mount_except_proc_witness :
    main_run { envBase with lstatDest := none } = .fatal
      "Couldnt find specified OSTree root /sysroot/ostree/boot.1/default/0/0" [] := by
  have h := (resolve_failure_no_mount_except_proc { envBase with lstatDest := none }
    "/sysroot" "/sysroot" "ostree/boot.1/default/0/0" true
    rfl rfl rfl rfl rfl rfl).1
  simpa using h

/-- C8: the run-state record is a pure function of the recorded facts (key
source, composefs used, sysroot read-only policy) — so two runs with
identical facts serialize byte-identical records — and in every successful
run the record write occurs strictly before the atomic root switch: no
switch event precedes it, no second write follows it, and the pivot or move
operation lies in the suffix after the write.  Stated for the default
`maybe` policy with both mount outcomes. -/
theorem run_state_record_deterministic_before_switch (e : Env) (ra rm tg dp : String)
    (cfg : ComposefsConfig)
    (h1 : e.argv1 = some ra) (h2 : e.procCmdlineStat = some true)
    (h3 : e.realpathRoot = some rm) (h4 : e.ostreeTarget = some tg)
    (h5 : e.lstatDest = some true) (h6 : e.realpathDest = some dp)
    (h7 : e.statDeployOk = true) (h8 : parse_ot_composefs e.otComposefs = .ok cfg)
    (h9 : e.haveComposefs = true) (h10 : e.remountRootPrivateOk = true)
    (h11 : e.mkdirTmpOk = true) (h12 : e.chdirDeployOk = true)
    (hm : cfg.mode = .maybe) (hd : cfg.digest = none)
    (hops : opsOk e) (hw : e.pathReadonlyFs ra = false) :
    ∃ pre suf,
      main_run e = .ok (pre ++ Event.writeRunBooted
        (run_state_record none e.lcfsMountOk (sysroot_is_configured_ro e.repoConfig))
          :: suf) () ∧
      (∀ ev ∈ pre, isSwitchEvent ev = false) ∧
      (∀ ev ∈ pre, ∀ r, ev ≠ Event.writeRunBooted r) ∧
      (∀ ev ∈ suf, ∀ r, ev ≠ Event.writeRunBooted r) ∧
      (rm = "/" → Event.pivotRootSwitch ∈ suf) ∧
      (rm ≠ "/" → Event.moveTmpToRoot rm ∈ suf) := by
  obtain ⟨p1, p2, p3, p4, p5, p6, p7, p8, p9, p10, p11, p12, p13, p14, p15, p16,
    p17, p18, p19, p20, p21, p22, p23, p24, p25, p26⟩ := hops
  rw [main_run_eq e ra rm tg dp cfg h1 h2 h3 h4 h5 h6 h7 h8 h9 h10 h11 h12]
  rw [scr_maybe e cfg dp [] [.remountRootPrivate, .mkdirTmpSysroot, .chdirDeploy]
    hm hd h9 p7]
  cases hl : e.lcfsMountOk
  · simp only [Bool.false_eq_true, if_false]
    refine ⟨[Event.remountRootPrivate, Event.mkdirTmpSysroot, Event.chdirDeploy,
        Event.lcfsMountImage false none, Event.bindDeployToTmp dp] ++
      ((if e.fsLstatIsSymlink (rm ++ "/boot/loader") && e.fsLstatIsDir "boot"
        then [Event.bindBoot (rm ++ "/boot")] else []) ++
       ((if sysroot_is_configured_ro e.repoConfig
         then [Event.bindEtc, Event.remountEtcWritable] else []) ++
        ((if e.fsLstatExists ".usr-ovl-work" then
            (if e.pathReadonlyFs TMP_SYSROOT then [Event.remountTmpWritable] else [])
              ++ [Event.mountUsrOverlay usr_ovl_options]
          else [Event.bindUsrSelf, Event.remountUsrReadonly]) ++
         ((if sysroot_is_configured_ro e.repoConfig
           then [Event.bindVarSelf, Event.remountVarWritable] else []) ++
          (if !e.haveSystemdAndLibmount || e.fsLstatExists INITRAMFS_MOUNT_VAR
           then [Event.bindVarToTmp] else []))))),
      [Event.chdirTmp] ++
        ((if rm = "/" then [Event.pivotRootSwitch]
          else [Event.moveRootToSysroot rm, Event.moveTmpToRoot rm, Event.chdirRoot,
                Event.rmdirTmpSysroot]
            ++ (if sysroot_is_configured_ro e.repoConfig
                then [Event.remountSysrootReadonly] else [])) ++
         [Event.markSysrootPrivate]),
      ?_, ?_, ?_, ?_, ?_, ?_⟩
    · have HT := main_tail_eq e ra rm (sysroot_is_configured_ro e.repoConfig) ⟨false, []⟩
        ([Event.remountRootPrivate, Event.mkdirTmpSysroot, Event.chdirDeploy]
          ++ [Event.lcfsMountImage false none, Event.bindDeployToTmp dp]) hw
        p8 p9 p10 p11 p12 p13 p14 p15 p16 p17 p18 p19 p20 p21 p22 p23 p24 p25 p26
      exact HT.trans (by simp [run_state_record, List.append_assoc])
    · simp [List.forall_mem_append, List.forall_mem_cons, forall_mem_ite_iff,
        mem_ite_list, isSwitchEvent, ite_self, or_imp, and_imp, forall_eq,
        forall_and, List.mem_append, List.mem_cons] <;> aesop
    · simp [List.forall_mem_append, List.forall_mem_cons, forall_mem_ite_iff,
        mem_ite_list, ite_self, or_imp, and_imp, forall_eq, forall_and,
        List.mem_append, List.mem_cons] <;> aesop
    · simp [List.forall_mem_append, List.forall_mem_cons, forall_mem_ite_iff,
        mem_ite_list, ite_self, or_imp, and_imp, forall_eq, forall_and,
        List.mem_append, List.mem_cons] <;> aesop
    · intro h
      simp [h, List.mem_append]
    · intro h
      simp [if_neg h, List.mem_append]
  · simp only [if_true]
    refine ⟨[Event.remountRootPrivate, Event.mkdirTmpSysroot, Event.chdirDeploy,
        Event.lcfsMountImage false none] ++
      ((if e.fsLstatIsSymlink (rm ++ "/boot/loader") && e.fsLstatIsDir "boot"
        then [Event.bindBoot (rm ++ "/boot")] else []) ++
       ([Event.bindEtc, Event.remountEtcWritable] ++
        ((if e.fsLstatExists ".usr-ovl-work" then
            (if e.pathReadonlyFs TMP_SYSROOT then [Event.remountTmpWritable] else [])
              ++ [Event.mountUsrOverlay usr_ovl_options]
          else []) ++
         ((if sysroot_is_configured_ro e.repoConfig
           then [Event.bindVarSelf, Event.remountVarWritable] else []) ++
          (if !e.haveSystemdAndLibmount || e.fsLstatExists INITRAMFS_MOUNT_VAR
           then [Event.bindVarToTmp] else []))))),
      [Event.chdirTmp] ++
        ((if rm = "/" then [Event.pivotRootSwitch]
          else [Event.moveRootToSysroot rm, Event.moveTmpToRoot rm, Event.chdirRoot,
                Event.rmdirTmpSysroot]
            ++ (if sysroot_is_configured_ro e.repoConfig
                then [Event.remountSysrootReadonly] else [])) ++
         [Event.markSysrootPrivate]),
      ?_, ?_, ?_, ?_, ?_, ?_⟩
    · have HT := main_tail_eq e ra rm (sysroot_is_configured_ro e.repoConfig)
        ⟨true, [] ++ [(OTCORE_RUN_BOOTED_KEY_COMPOSEFS, RunVal.vb true)]⟩
        ([Event.remountRootPrivate, Event.mkdirTmpSysroot, Event.chdirDeploy]
          ++ [Event.lcfsMountImage false none]) hw
        p8 p9 p10 p11 p12 p13 p14 p15 p16 p17 p18 p19 p20 p21 p22 p23 p24 p25 p26
      exact HT.trans (by simp [run_state_record, List.append_assoc])
    · simp [List.forall_mem_append, List.forall_mem_cons, forall_mem_ite_iff,
        mem_ite_list, isSwitchEvent, ite_self, or_imp, and_imp, forall_eq,
        forall_and, List.mem_append, List.mem_cons] <;> aesop
    · simp [List.forall_mem_append, List.forall_mem_cons, forall_mem_ite_iff,
        mem_ite_list, ite_self, or_imp, and_imp, forall_eq, forall_and,
        List.mem_append, List.mem_cons] <;> aesop
    · simp [List.forall_mem_append, List.forall_mem_cons, forall_mem_ite_iff,
        mem_ite_list, ite_self, or_imp, and_imp, forall_eq, forall_and,
        List.mem_append, List.mem_cons] <;> aesop
    · intro h
      simp [h, List.mem_append]
    · intro h
      simp [if_neg h, List.mem_append]

/-- Witness for C8: in a concrete successful maybe-mode run with the composed
mount succeeding, the record written is exactly the one determined by the
facts (no key, composefs used, sysroot not read-only). -/
theorem run_state_record_deterministic_before_switch_witness :
    Event.writeRunBooted (run_state_record none true false) ∈
      ([.remountRootPrivate, .mkdirTmpSysroot, .chdirDeploy,
        .lcfsMountImage false none, .bindEtc, .remountEtcWritable,
        .writeRunBooted [(OTCORE_RUN_BOOTED_KEY_COMPOSEFS, RunVal.vb true),
                         (OTCORE_RUN_BOOTED_KEY_SYSROOT_RO, RunVal.vb false)],
        .chdirTmp, .moveRootToSysroot "/sysroot", .moveTmpToRoot "/sysroot",
        .chdirRoot, .rmdirTmpSysroot, .markSysrootPrivate] : List Event) := by
  obtain ⟨pre, suf, heq, hp1, hp2, hp3, hp4, hp5⟩ :=
    run_state_record_deterministic_before_switch
      { envBase with otComposefs := some "maybe" }
      "/sysroot" "/sysroot" "ostree/boot.1/default/0/0"
      "/sysroot/ostree/deploy/default/deploy/abc.0" ⟨.maybe, none, none⟩
      rfl rfl rfl rfl rfl rfl rfl rfl rfl rfl rfl rfl rfl rfl
      ⟨rfl, rfl, rfl, rfl, rfl, rfl, rfl, rfl, rfl, rfl, rfl, rfl, rfl, rfl, rfl, rfl,
       rfl, rfl, rfl, rfl, rfl, rfl, rfl, rfl, rfl, rfl⟩ rfl
  have hL : main_run { envBase with otComposefs := some "maybe" } = .ok
      [Event.remountRootPrivate, Event.mkdirTmpSysroot, Event.chdirDeploy,
       Event.lcfsMountImage false none, Event.bindEtc, Event.remountEtcWritable,
       Event.writeRunBooted [(OTCORE_RUN_BOOTED_KEY_COMPOSEFS, RunVal.vb true),
                             (OTCORE_RUN_BOOTED_KEY_SYSROOT_RO, RunVal.vb false)],
       Event.chdirTmp, Event.moveRootToSysroot "/sysroot",
       Event.moveTmpToRoot "/sysroot", Event.chdirRoot, Event.rmdirTmpSysroot,
       Event.markSysrootPrivate] () := by decide
  have h2 := hL.symm.trans heq
  injection h2 with hT hv
  rw [hT]
  exact List.mem_append_right pre (List.mem_cons_self _ _)
